import Mathlib

/-!
Shallow embedding of the testsprite_tests scenario scripts
(TC004, TC005, TC008, TC009, TC012, TC015, TC018).

Every script is one async function run_test() with the same shape:

  try:
    pw = await async_playwright().start()
    browser = await pw.chromium.launch(...)
    context = await browser.new_context(); context.set_default_timeout(5000)
    page = await context.new_page()
    await page.goto(initialUrl, wait_until="commit", timeout=10000)
    try: await page.wait_for_load_state("domcontentloaded", timeout=3000)
    except async_api.Error: pass
    for frame in page.frames:
      try: await frame.wait_for_load_state("domcontentloaded", timeout=3000)
      except async_api.Error: pass
    <body steps: goto(url, timeout=10000); asyncio.sleep(3)
     or wait_for_timeout(3000); elem.fill(v) / elem.click(timeout=5000)
     or (TC009) page.mouse.wheel(0, await page.evaluate(expr))>
    try: await expect(frame.locator(sel).first).to_be_visible(timeout=T)
    except AssertionError: raise AssertionError(failMsg)
    await asyncio.sleep(5)
  finally:
    if context: await context.close()
    if browser: await browser.close()
    if pw: await pw.stop()

The embedding is parametric in an environment that fixes the outcome of each
awaited driver call (success, or an exception of some class).  Execution
yields the list of attempted calls (the trace) and the scenario's final result
(None = normal return, or the propagated exception).  asyncio.sleep and the
synchronous calls (locator construction, pages[-1], set_default_timeout) are
modelled as infallible; every awaited driver call is fallible.
-/

namespace Runner

/-- Exception classes distinguished by the scripts' except clauses:
async_api.Error (driver errors, timeouts included), AssertionError (carrying
its message), and every other exception class. -/
inductive Exc
  | driver
  | assertionError (msg : String)
  | other
  deriving DecidableEq

/-- Outcome of one awaited call: none = returned normally, some e = raised e. -/
abbrev Outcome := Option Exc

/-- The wait_until argument values page.goto accepts (only commit appears
explicitly in the scripts; absence of the argument is modelled as none). -/
inductive WaitUntil
  | commit
  | load
  | domcontentloaded
  deriving DecidableEq

/-- One attempted call of the script, as recorded in the execution trace. -/
inductive Event
  | pwStart
  | browserLaunch
  | newContext
  | setDefaultTimeout (ms : Nat)
  | newPage
  | goto (url : String) (waitUntil : Option WaitUntil) (timeoutMs : Nat)
  | waitForLoadState (frame : Option Nat) (state : String) (timeoutMs : Nat)
  | sleep (secs : Nat)
  | waitForTimeout (ms : Nat)
  | fill (selector : String) (value : String)
  | click (selector : String) (timeoutMs : Nat)
  | evaluate (expr : String)
  | mouseWheel (dx : Nat)
  | expectVisible (selector : String) (timeoutMs : Nat)
  | contextClose
  | browserClose
  | pwStop
  deriving DecidableEq

/-- One step of a script's body, between the initial soft waits and the
terminal assertion.  navigate is page.goto(url, timeout=t) followed by
asyncio.sleep(3); fill is page.wait_for_timeout(3000) followed by elem.fill(v);
click is page.wait_for_timeout(3000) followed by elem.click(timeout=t);
scroll is page.mouse.wheel(0, await page.evaluate(expr)) (two awaited calls). -/
inductive BodyStep
  | navigate (url : String) (timeoutMs : Nat)
  | fill (selector : String) (value : String)
  | click (selector : String) (timeoutMs : Nat)
  | scroll (expr : String)
  deriving DecidableEq

/-- The data of one script: initial URL (navigated with wait_until="commit",
timeout=10000), the body steps, the terminal assertion's locator and timeout,
and the authored AssertionError message raised when the assertion fails. -/
structure Scenario where
  initialUrl : String
  steps : List BodyStep
  assertSelector : String
  assertTimeoutMs : Nat
  failMsg : String
  deriving DecidableEq

/-- The outcome oracle for one execution: what each awaited driver call does.
navOutcome n is the outcome of the n-th page.goto (0 = the initial one);
actOutcome a is the outcome of the a-th awaited interaction call of the body
(each body fill/click/scroll step makes two such calls in order);
numFrames is the length of page.frames in the per-frame wait loop;
assertVisible says whether the expected text becomes visible in time. -/
structure Env where
  startOutcome : Outcome
  launchOutcome : Outcome
  newContextOutcome : Outcome
  newPageOutcome : Outcome
  navOutcome : Nat → Outcome
  mainWaitOutcome : Outcome
  numFrames : Nat
  frameWaitOutcome : Nat → Outcome
  actOutcome : Nat → Outcome
  assertVisible : Bool
  contextCloseOutcome : Outcome
  browserCloseOutcome : Outcome
  stopOutcome : Outcome

/-- Result of running a piece of straight-line code: the trace of attempted
calls and none (fell through) or some e (exception e in flight). -/
abbrev Res := List Event × Outcome

/-- Sequencing of two pieces of straight-line code: if the first raises, the
second never runs. -/
def seq (a b : Res) : Res :=
  if a.2 = none then (a.1 ++ b.1, b.2) else a

/-- The except async_api.Error: pass clause around each load-state wait:
driver errors are swallowed, every other exception class propagates. -/
def tolerate : Outcome → Outcome
  | some Exc.driver => none
  | o => o

/-- How many page.goto calls a body step makes. -/
def stepNavs : BodyStep → Nat
  | BodyStep.navigate _ _ => 1
  | _ => 0

/-- How many awaited interaction calls a body step makes. -/
def stepActs : BodyStep → Nat
  | BodyStep.navigate _ _ => 0
  | _ => 2

/-- Total page.goto calls of a list of body steps. -/
def navsIn : List BodyStep → Nat
  | [] => 0
  | s :: rest => stepNavs s + navsIn rest

/-- Total awaited interaction calls of a list of body steps. -/
def actsIn : List BodyStep → Nat
  | [] => 0
  | s :: rest => stepActs s + actsIn rest

/-- Execution of one body step, given the index n of its goto call and the
index a of its first interaction call. -/
def stepRes (e : Env) (n a : Nat) : BodyStep → Res
  | BodyStep.navigate url t =>
      seq ([Event.goto url none t], e.navOutcome n) ([Event.sleep 3], none)
  | BodyStep.fill sel v =>
      seq ([Event.waitForTimeout 3000], e.actOutcome a)
        ([Event.fill sel v], e.actOutcome (a + 1))
  | BodyStep.click sel t =>
      seq ([Event.waitForTimeout 3000], e.actOutcome a)
        ([Event.click sel t], e.actOutcome (a + 1))
  | BodyStep.scroll expr =>
      seq ([Event.evaluate expr], e.actOutcome a)
        ([Event.mouseWheel 0], e.actOutcome (a + 1))

/-- Execution of a list of body steps, threading the call indices. -/
def runBody (e : Env) : Nat → Nat → List BodyStep → Res
  | _, _, [] => ([], none)
  | n, a, s :: rest =>
      seq (stepRes e n a s) (runBody e (n + stepNavs s) (a + stepActs s) rest)

/-- The tolerant per-frame wait for frame index i. -/
def waitFrame (e : Env) (i : Nat) : Res :=
  ([Event.waitForLoadState (some i) "domcontentloaded" 3000],
   tolerate (e.frameWaitOutcome i))

/-- The for frame in page.frames loop: k tolerant waits starting at index s. -/
def runFramesFrom (e : Env) : Nat → Nat → Res
  | _, 0 => ([], none)
  | s, k + 1 => seq (waitFrame e s) (runFramesFrom e (s + 1) k)

/-- The tolerant main-page wait_for_load_state. -/
def mainWait (e : Env) : Res :=
  ([Event.waitForLoadState none "domcontentloaded" 3000],
   tolerate e.mainWaitOutcome)

/-- The terminal assertion block: expect(...).to_be_visible(timeout=T); if the
text is not visible the AssertionError from expect is caught and a new
AssertionError carrying the authored message is raised. -/
def assertStep (sc : Scenario) (e : Env) : Res :=
  ([Event.expectVisible sc.assertSelector sc.assertTimeoutMs],
   if e.assertVisible then none else some (Exc.assertionError sc.failMsg))

/-- The part of the try block from context.set_default_timeout on: new page,
initial committed navigation, soft waits, body steps, terminal assertion,
settle sleep. -/
def afterContext (sc : Scenario) (e : Env) : Res :=
  seq ([Event.setDefaultTimeout 5000], none) <|
  seq ([Event.newPage], e.newPageOutcome) <|
  seq ([Event.goto sc.initialUrl (some WaitUntil.commit) 10000], e.navOutcome 0) <|
  seq (mainWait e) <|
  seq (runFramesFrom e 0 e.numFrames) <|
  seq (runBody e 1 0 sc.steps) <|
  seq (assertStep sc e) ([Event.sleep 5], none)

/-- Which of the three handles (pw, browser, context) are non-None when the
finally block is entered. -/
structure Acquired where
  pw : Bool
  browser : Bool
  context : Bool
  deriving DecidableEq

/-- The whole try block.  The three handles start as None and are assigned one
by one, so a failure during acquisition leaves the later handles None. -/
def tryPart (sc : Scenario) (e : Env) : Res × Acquired :=
  match e.startOutcome with
  | some exc => (([Event.pwStart], some exc), ⟨false, false, false⟩)
  | none =>
    match e.launchOutcome with
    | some exc => (([Event.pwStart, Event.browserLaunch], some exc), ⟨true, false, false⟩)
    | none =>
      match e.newContextOutcome with
      | some exc =>
          (([Event.pwStart, Event.browserLaunch, Event.newContext], some exc),
           ⟨true, true, false⟩)
      | none =>
          (([Event.pwStart, Event.browserLaunch, Event.newContext] ++ (afterContext sc e).1,
            (afterContext sc e).2),
           ⟨true, true, true⟩)

/-- One statement of the finally block: if handle: await handle.close(). -/
def closeRes (cond : Bool) (ev : Event) (out : Outcome) : Res :=
  if cond then ([ev], out) else ([], none)

/-- The finally block.  Each close is guarded only by the truthiness of its
handle; the three statements run in sequence, so an exception raised by one
close abandons the remaining statements. -/
def teardown (a : Acquired) (e : Env) : Res :=
  seq (closeRes a.context Event.contextClose e.contextCloseOutcome) <|
  seq (closeRes a.browser Event.browserClose e.browserCloseOutcome)
    (closeRes a.pw Event.pwStop e.stopOutcome)

/-- Python finally semantics: an exception raised inside the finally block
replaces the exception in flight (if any). -/
def mergeFinally (tryOut finOut : Outcome) : Outcome :=
  match finOut with
  | some f => some f
  | none => tryOut

/-- One whole run_test() execution: try block, then the finally block on every
exit path. -/
def runScenario (sc : Scenario) (e : Env) : Res :=
  ((tryPart sc e).1.1 ++ (teardown (tryPart sc e).2 e).1,
   mergeFinally (tryPart sc e).1.2 (teardown (tryPart sc e).2 e).2)

/-! The seven scripts' data, transcribed from the sources.  Selectors shared
across files are named once. -/

/-- The initial URL every script navigates to with wait_until="commit". -/
def initialFileUrl : String :=
  "http://localhost:8080/C:\\Users\\John Patrick Robles\\Documents\\firebnb-spark day5"

/-- The login form email input. -/
def emailSel : String :=
  "xpath=html/body/div/div[2]/div[2]/div/div[3]/div/div[2]/form/div/div/input"

/-- The login form password input. -/
def passwordSel : String :=
  "xpath=html/body/div/div[2]/div[2]/div/div[3]/div/div[2]/form/div[2]/div/input"

/-- The login form Sign In button. -/
def signInSel : String :=
  "xpath=html/body/div/div[2]/div[2]/div/div[3]/div/div[2]/form/button"

/-- The Forgot Password button on the login form. -/
def forgotSel : String :=
  "xpath=html/body/div/div[2]/div[2]/div/div[3]/div/div[2]/form/div[3]/button"

/-- The password-reset email input. -/
def resetEmailSel : String :=
  "xpath=html/body/div/div[2]/div[2]/div/div[3]/form/div/div/input"

/-- The Send Reset Link button. -/
def resetSendSel : String :=
  "xpath=html/body/div/div[2]/div[2]/div/div[3]/form/button"

/-- The Back to Login button of the reset form. -/
def backToLoginSel : String :=
  "xpath=html/body/div/div[2]/div[2]/div/div[3]/div/div[3]/button[2]"

/-- TC004_Create_Host_Listing_with_Required_Fields_and_Image_Upload.py. -/
def TC004 : Scenario where
  initialUrl := initialFileUrl
  steps :=
    [BodyStep.navigate "http://localhost:8080/login" 10000,
     BodyStep.navigate "http://localhost:8080/" 10000,
     BodyStep.navigate "http://localhost:8080/login" 10000,
     BodyStep.click "xpath=html/body/div/div[2]/div/div/div[2]/div[2]/a" 5000,
     BodyStep.click "xpath=html/body/div/div[2]/section[3]/div/div/div[2]/div/a" 5000,
     BodyStep.fill emailSel "Test",
     BodyStep.fill passwordSel "12345abc",
     BodyStep.click signInSel 5000,
     BodyStep.fill emailSel "host@example.com",
     BodyStep.click signInSel 5000,
     BodyStep.click signInSel 5000]
  assertSelector := "text=Listing Published Successfully"
  assertTimeoutMs := 1000
  failMsg := "Test case failed: The listing creation test did not pass as expected. The listing was not saved as a draft and images were not confirmed uploaded. Expected 'draft' status and image previews, but these were not found on the page."

/-- TC005_Listing_Publish_Fee_Payment_and_Admin_Approval_Workflow.py. -/
def TC005 : Scenario where
  initialUrl := initialFileUrl
  steps :=
    [BodyStep.navigate "http://localhost:8080/login" 10000,
     BodyStep.navigate "http://localhost:8080/" 10000,
     BodyStep.navigate "http://localhost:8080/login" 10000,
     BodyStep.click "xpath=html/body/div/div[2]/footer/div/div/div[2]/ul/li[4]/a" 5000,
     BodyStep.navigate "http://localhost:8080/host/listings" 10000,
     BodyStep.navigate "http://localhost:8080/admin/listings" 10000,
     BodyStep.click "xpath=html/body/div/div[2]/div/div/div/div[2]/button" 5000,
     BodyStep.click "xpath=html/body/div[3]/div[2]/button[2]" 5000,
     BodyStep.click "xpath=html/body/div/div[2]/div/div/div/div[2]/button[2]" 5000,
     BodyStep.click "xpath=html/body/div[3]/div[2]/button[2]" 5000]
  assertSelector := "text=Listing payment successful and status is now pending approval"
  assertTimeoutMs := 30000
  failMsg := "Test case failed: After host pays the listing publish fee via PayPal, the listing status did not change to pending approval as expected, or admin approval/rejection process did not complete successfully."

/-- TC008_Booking_Payment_via_E_wallet_and_PayPal_with_Refund_Handling.py. -/
def TC008 : Scenario where
  initialUrl := initialFileUrl
  steps :=
    [BodyStep.click "xpath=html/body/div/div[2]/div/div/div[2]/div[2]/a" 5000,
     BodyStep.click "xpath=html/body/div/div[2]/section[3]/div/div/div/div/a" 5000,
     BodyStep.fill emailSel "Test",
     BodyStep.fill passwordSel "12345abc",
     BodyStep.click signInSel 5000,
     BodyStep.fill emailSel "",
     BodyStep.fill emailSel "guest@example.com",
     BodyStep.fill passwordSel "12345abc",
     BodyStep.click signInSel 5000,
     BodyStep.click "xpath=html/body/div" 5000]
  assertSelector := "text=Refund Processed Successfully"
  assertTimeoutMs := 1000
  failMsg := "Test case failed: The test plan execution failed to verify that the guest can pay using wallet or PayPal and request refunds processed correctly with updated transaction records."

/-- TC009_Real_time_Messaging_Between_Guests_and_Hosts.py. -/
def TC009 : Scenario where
  initialUrl := initialFileUrl
  steps :=
    [BodyStep.navigate "http://localhost:8080/login" 10000,
     BodyStep.navigate "http://localhost:8080/" 10000,
     BodyStep.scroll "() => window.innerHeight",
     BodyStep.click "xpath=html/body/div/div[2]/section[3]/div/div/div/div/a" 5000,
     BodyStep.fill emailSel "Test",
     BodyStep.fill passwordSel "12345abc",
     BodyStep.click signInSel 5000,
     BodyStep.fill emailSel "",
     BodyStep.fill emailSel "guest@example.com",
     BodyStep.fill passwordSel "12345abc",
     BodyStep.click signInSel 5000,
     BodyStep.click forgotSel 5000,
     BodyStep.fill resetEmailSel "guest@example.com",
     BodyStep.click resetSendSel 5000,
     BodyStep.click backToLoginSel 5000,
     BodyStep.fill emailSel "guest@example.com",
     BodyStep.fill passwordSel "newpassword123",
     BodyStep.click signInSel 5000]
  assertSelector := "text=Message delivery confirmed"
  assertTimeoutMs := 1000
  failMsg := "Test case failed: Real-time messaging between guests and hosts did not work as expected. Messages were not delivered or received immediately as required by the test plan."

/-- TC012_Calendar_Availability_Management_by_Host.py. -/
def TC012 : Scenario where
  initialUrl := initialFileUrl
  steps :=
    [BodyStep.click "xpath=html/body/div/div[2]/footer/div/div/div[2]/ul/li[4]/a" 5000,
     BodyStep.navigate "http://localhost:8080/host/dashboard" 10000,
     BodyStep.fill emailSel "Test",
     BodyStep.fill passwordSel "12345abc",
     BodyStep.click signInSel 5000,
     BodyStep.fill emailSel "host@example.com",
     BodyStep.click signInSel 5000,
     BodyStep.click signInSel 5000,
     BodyStep.click forgotSel 5000,
     BodyStep.fill resetEmailSel "host@example.com",
     BodyStep.click resetSendSel 5000,
     BodyStep.click backToLoginSel 5000,
     BodyStep.fill emailSel "host@example.com",
     BodyStep.fill passwordSel "12345abc",
     BodyStep.click signInSel 5000]
  assertSelector := "text=Booking Confirmed for Blocked Dates"
  assertTimeoutMs := 1000
  failMsg := "Test case failed: The availability calendar update and booking restrictions for blocked dates were not reflected correctly as per the test plan."

/-- TC015_Favorites_and_Wishlist_Save_and_Retrieve_Listings.py. -/
def TC015 : Scenario where
  initialUrl := initialFileUrl
  steps :=
    [BodyStep.click "xpath=html/body/div/div[2]/div/div/div[2]/div[2]/a[2]" 5000,
     BodyStep.navigate "http://localhost:8080/guest/browse" 10000,
     BodyStep.navigate "http://localhost:8080/" 10000,
     BodyStep.click "xpath=html/body/div/div[2]/section/div[5]/div/div/a" 5000,
     BodyStep.fill emailSel "guest@example.com",
     BodyStep.fill passwordSel "12345abc",
     BodyStep.click signInSel 5000,
     BodyStep.fill passwordSel "12345abc",
     BodyStep.click "xpath=html/body/div/div[2]/div[2]/div/div[3]/div/div[2]/form/button[2]" 5000,
     BodyStep.fill "xpath=html/body/div[2]/div/div/div[2]/c-wiz/main/div[2]/div/div/div/form/span/section/div/div/div/div/div/div/div/input" "guest@example.com",
     BodyStep.click "xpath=html/body/div[2]/div/div/div[2]/c-wiz/main/div[3]/div/div/div/div/button" 5000]
  assertSelector := "text=Listing Added to Favorites and Wishlist Successfully"
  assertTimeoutMs := 1000
  failMsg := "Test case failed: Guests could not add listings to favorites and wishlists or retrieve them correctly from respective pages as per the test plan."

/-- TC018_Performance_Load_Times_and_Responsiveness_of_Key_Pages.py. -/
def TC018 : Scenario where
  initialUrl := initialFileUrl
  steps :=
    [BodyStep.click "xpath=html/body/div/div[2]/footer/div/div/div[2]/ul/li[3]/a" 5000,
     BodyStep.fill emailSel "Test",
     BodyStep.fill passwordSel "12345abc",
     BodyStep.click signInSel 5000,
     BodyStep.fill emailSel "guest@example.com",
     BodyStep.click signInSel 5000,
     BodyStep.click signInSel 5000]
  assertSelector := "text=Platform Load Time Benchmark Exceeded"
  assertTimeoutMs := 1000
  failMsg := "Test case failed: The platform pages such as login, dashboards, listing browse, and booking did not load within the defined time benchmarks or the UI was not responsive under typical load as per the test plan."

/-- The seven Scenario scripts of the repository. -/
def allScenarios : List Scenario :=
  [TC004, TC005, TC008, TC009, TC012, TC015, TC018]

/-! Concrete environments used to exercise runScenario on particular exit
paths. -/

/-- Every awaited call succeeds, one frame in the frames loop, the expected
text is visible in time. -/
def envAllOk : Env where
  startOutcome := none
  launchOutcome := none
  newContextOutcome := none
  newPageOutcome := none
  navOutcome := fun _ => none
  mainWaitOutcome := none
  numFrames := 1
  frameWaitOutcome := fun _ => none
  actOutcome := fun _ => none
  assertVisible := true
  contextCloseOutcome := none
  browserCloseOutcome := none
  stopOutcome := none

/-- As envAllOk, but the terminal assertion's text never becomes visible. -/
def envAssertFail : Env :=
  { envAllOk with assertVisible := false }

/-- As envAllOk, but context.close() raises a driver error in the finally
block. -/
def envCtxCloseFail : Env :=
  { envAllOk with contextCloseOutcome := some Exc.driver }

/-- As envAllOk, but browser.launch raises, so context stays None. -/
def envLaunchFail : Env :=
  { envAllOk with launchOutcome := some Exc.driver }

/-- As envAllOk, but browser.new_context raises, so context stays None. -/
def envNewContextFail : Env :=
  { envAllOk with newContextOutcome := some Exc.driver }

/-- As envAllOk, but async_playwright().start() raises. -/
def envStartFail : Env :=
  { envAllOk with startOutcome := some Exc.driver }

/-- As envAllOk, but the two tolerant load-state waits time out with the
driver error that except async_api.Error catches. -/
def envSoftWaitFail : Env :=
  { envAllOk with
      mainWaitOutcome := some Exc.driver
      frameWaitOutcome := fun _ => some Exc.driver }

/-- As envAllOk, but the main tolerant wait raises an exception that is not an
async_api.Error. -/
def envWaitOtherFail : Env :=
  { envAllOk with mainWaitOutcome := some Exc.other }

/-- As envAllOk, but the first body navigation (goto call 1) raises. -/
def envNavFail : Env :=
  { envAllOk with navOutcome := fun n => if n = 1 then some Exc.driver else none }

/-- As envAllOk, but the initial committed navigation (goto call 0) raises. -/
def envNav0Fail : Env :=
  { envAllOk with navOutcome := fun n => if n = 0 then some Exc.driver else none }

/-- As envAllOk, but the first awaited interaction call of the body raises
(an action timeout on a required interaction). -/
def envActFail : Env :=
  { envAllOk with actOutcome := fun a => if a = 0 then some Exc.driver else none }

/-! Helper lemmas about the execution model. -/

/-- Event classes used in the statements: the three finally-block releases. -/
def isTeardown : Event → Bool
  | Event.contextClose => true
  | Event.browserClose => true
  | Event.pwStop => true
  | _ => false

/-- The terminal assertion's visibility check. -/
def isAssert : Event → Bool
  | Event.expectVisible _ _ => true
  | _ => false

/-- The page.goto calls of a trace, with their wait_until and timeout
arguments. -/
def gotoCalls (tr : List Event) : List (String × Option WaitUntil × Nat) :=
  tr.filterMap (fun ev =>
    match ev with
    | Event.goto u w t => some (u, w, t)
    | _ => none)

lemma seq_ok {a : Res} (h : a.2 = none) (b : Res) : seq a b = (a.1 ++ b.1, b.2) := by
  simp [seq, h]

lemma seq_fail {a : Res} {exc : Exc} (h : a.2 = some exc) (b : Res) : seq a b = a := by
  simp [seq, h]

lemma seq_assoc (a b c : Res) : seq (seq a b) c = seq a (seq b c) := by
  rcases a with ⟨ta, oa⟩
  rcases b with ⟨tb, ob⟩
  cases oa <;> cases ob <;> simp [seq]

lemma mem_seq {x : Event} {a b : Res} :
    x ∈ (seq a b).1 ↔ x ∈ a.1 ∨ (a.2 = none ∧ x ∈ b.1) := by
  rcases a with ⟨ta, oa⟩
  cases oa <;> simp [seq]

lemma allEv_seq {p : Event → Bool} {a b : Res}
    (h1 : ∀ x ∈ a.1, p x = true) (h2 : ∀ x ∈ b.1, p x = true) :
    ∀ x ∈ (seq a b).1, p x = true := by
  intro x hx
  rcases mem_seq.1 hx with h | ⟨-, h⟩
  · exact h1 x h
  · exact h2 x h

/-- Events of the body and of the soft waits are neither releases nor the
terminal assertion. -/
def plainEv (x : Event) : Bool := !isTeardown x && !isAssert x

lemma stepRes_plain (e : Env) (n a : Nat) (s : BodyStep) :
    ∀ x ∈ (stepRes e n a s).1, plainEv x = true := by
  cases s <;>
    exact allEv_seq (by intro x hx; simp at hx; subst hx; rfl)
      (by intro x hx; simp at hx; subst hx; rfl)

lemma runBody_plain (e : Env) :
    ∀ (l : List BodyStep) (n a : Nat), ∀ x ∈ (runBody e n a l).1, plainEv x = true := by
  intro l
  induction l with
  | nil => intro n a x hx; simp [runBody] at hx
  | cons s rest ih =>
      intro n a
      exact allEv_seq (stepRes_plain e n a s) (ih _ _)

lemma runFrames_plain (e : Env) :
    ∀ (k s : Nat), ∀ x ∈ (runFramesFrom e s k).1, plainEv x = true := by
  intro k
  induction k with
  | zero => intro s x hx; simp [runFramesFrom] at hx
  | succ k ih =>
      intro s
      exact allEv_seq (by intro x hx; simp [waitFrame] at hx; subst hx; rfl) (ih _)

lemma afterContext_noTeardown (sc : Scenario) (e : Env) :
    ∀ x ∈ (afterContext sc e).1, isTeardown x = false := by
  have base : ∀ x ∈ (afterContext sc e).1, (!isTeardown x) = true := by
    refine allEv_seq (by intro x hx; simp at hx; subst hx; rfl) ?_
    refine allEv_seq (by intro x hx; simp at hx; subst hx; rfl) ?_
    refine allEv_seq (by intro x hx; simp at hx; subst hx; rfl) ?_
    refine allEv_seq (by intro x hx; simp [mainWait] at hx; subst hx; rfl) ?_
    refine allEv_seq ?_ ?_
    · intro x hx
      have := runFrames_plain e e.numFrames 0 x hx
      simp [plainEv] at this
      simp [this.1]
    refine allEv_seq ?_ ?_
    · intro x hx
      have := runBody_plain e sc.steps 1 0 x hx
      simp [plainEv] at this
      simp [this.1]
    refine allEv_seq (by intro x hx; simp [assertStep] at hx; subst hx; rfl)
      (by intro x hx; simp at hx; subst hx; rfl)
  intro x hx
  have := base x hx
  simpa using this

lemma tryPart_noTeardown (sc : Scenario) (e : Env) :
    ∀ x ∈ (tryPart sc e).1.1, isTeardown x = false := by
  intro x hx
  unfold tryPart at hx
  rcases hs : e.startOutcome with _ | exc
  · rcases hl : e.launchOutcome with _ | exc
    · rcases hc : e.newContextOutcome with _ | exc
      · rw [hs, hl, hc] at hx
        simp at hx
        rcases hx with hx | hx | hx | hx
        · subst hx; rfl
        · subst hx; rfl
        · subst hx; rfl
        · exact afterContext_noTeardown sc e x hx
      · rw [hs, hl, hc] at hx
        simp at hx
        rcases hx with hx | hx | hx <;> (subst hx; rfl)
    · rw [hs, hl] at hx
      simp at hx
      rcases hx with hx | hx <;> (subst hx; rfl)
  · rw [hs] at hx
    simp at hx
    subst hx; rfl

lemma tolerate_none {o : Outcome} (h : o = none ∨ o = some Exc.driver) :
    tolerate o = none := by
  rcases h with h | h <;> simp [h, tolerate]

lemma tolerate_some {exc : Exc} (h : exc ≠ Exc.driver) :
    tolerate (some exc) = some exc := by
  cases exc with
  | driver => exact absurd rfl h
  | assertionError m => rfl
  | other => rfl

/-- The trace of the per-frame wait loop over frames s, s+1, ..., s+k-1. -/
def frameEvents : Nat → Nat → List Event
  | _, 0 => []
  | s, k + 1 =>
      Event.waitForLoadState (some s) "domcontentloaded" 3000 :: frameEvents (s + 1) k

lemma runFrames_ok_from (e : Env) :
    ∀ (k s : Nat), (∀ j, j < k → tolerate (e.frameWaitOutcome (s + j)) = none) →
      runFramesFrom e s k = (frameEvents s k, none) := by
  intro k
  induction k with
  | zero => intro s _; rfl
  | succ k ih =>
      intro s hf
      have h0 : tolerate (e.frameWaitOutcome s) = none := by
        simpa using hf 0 (by omega)
      have hrest : ∀ j, j < k → tolerate (e.frameWaitOutcome (s + 1 + j)) = none := by
        intro j hj
        have := hf (j + 1) (by omega)
        simpa [Nat.add_assoc, Nat.add_comm 1 j] using this
      simp [runFramesFrom, waitFrame, seq, h0, ih (s + 1) hrest, frameEvents]

lemma runFrames_ok (e : Env) (hf : ∀ i, tolerate (e.frameWaitOutcome i) = none) :
    ∀ (k s : Nat), runFramesFrom e s k = (frameEvents s k, none) := by
  intro k s
  exact runFrames_ok_from e k s (fun j _ => hf (s + j))

lemma runFrames_none (e : Env) :
    ∀ (k s : Nat), (runFramesFrom e s k).2 = none →
      ∀ j, j < k → tolerate (e.frameWaitOutcome (s + j)) = none := by
  intro k
  induction k with
  | zero => intro s _ j hj; omega
  | succ k ih =>
      intro s h j hj
      rcases hw : tolerate (e.frameWaitOutcome s) with _ | exc
      · rcases j with _ | j
        · simpa using hw
        · have h2 : (runFramesFrom e (s + 1) k).2 = none := by
            have := h
            rw [runFramesFrom, seq_ok (a := waitFrame e s) (by simpa [waitFrame] using hw)] at this
            simpa using this
          have := ih (s + 1) h2 j (by omega)
          simpa [Nat.add_assoc, Nat.add_comm 1 j] using this
      · exfalso
        rw [runFramesFrom, seq_fail (a := waitFrame e s) (by simpa [waitFrame] using hw)] at h
        simp [waitFrame, hw] at h

lemma runFrames_fail (e : Env) (exc : Exc) :
    ∀ (i k s : Nat), i < k →
      (∀ j, j < i → tolerate (e.frameWaitOutcome (s + j)) = none) →
      tolerate (e.frameWaitOutcome (s + i)) = some exc →
      (runFramesFrom e s k).2 = some exc := by
  intro i
  induction i with
  | zero =>
      intro k s hk _ hbad
      rcases k with _ | k
      · omega
      · rw [runFramesFrom, seq_fail (a := waitFrame e s) (by simpa [waitFrame] using hbad)]
        simpa [waitFrame] using hbad
  | succ i ih =>
      intro k s hk hok hbad
      rcases k with _ | k
      · omega
      · have h0 : tolerate (e.frameWaitOutcome s) = none := by
          simpa using hok 0 (by omega)
        rw [runFramesFrom, seq_ok (a := waitFrame e s) (by simpa [waitFrame] using h0)]
        have hok2 : ∀ j, j < i → tolerate (e.frameWaitOutcome (s + 1 + j)) = none := by
          intro j hj
          have := hok (j + 1) (by omega)
          simpa [Nat.add_assoc, Nat.add_comm 1 j] using this
        have hbad2 : tolerate (e.frameWaitOutcome (s + 1 + i)) = some exc := by
          have := hbad
          simpa [Nat.add_assoc, Nat.add_comm 1 i] using this
        simpa using ih k (s + 1) (by omega) hok2 hbad2

/-- The trace of the try block up to and including the soft waits, when the
acquisition calls, the initial navigation and the waits all complete. -/
def setupEvents (sc : Scenario) (e : Env) : List Event :=
  [Event.pwStart, Event.browserLaunch, Event.newContext, Event.setDefaultTimeout 5000,
   Event.newPage, Event.goto sc.initialUrl (some WaitUntil.commit) 10000,
   Event.waitForLoadState none "domcontentloaded" 3000] ++ frameEvents 0 e.numFrames

/-- The body steps, the terminal assertion and the settle sleep. -/
def tailRes (sc : Scenario) (e : Env) : Res :=
  seq (runBody e 1 0 sc.steps) (seq (assertStep sc e) ([Event.sleep 5], none))

lemma tryPart_acq (sc : Scenario) (e : Env)
    (h1 : e.startOutcome = none) (h2 : e.launchOutcome = none)
    (h3 : e.newContextOutcome = none) :
    tryPart sc e =
      (([Event.pwStart, Event.browserLaunch, Event.newContext] ++ (afterContext sc e).1,
        (afterContext sc e).2), ⟨true, true, true⟩) := by
  simp [tryPart, h1, h2, h3]

lemma afterContext_ok (sc : Scenario) (e : Env)
    (hp : e.newPageOutcome = none) (hn : e.navOutcome 0 = none)
    (hm : tolerate e.mainWaitOutcome = none)
    (hf : ∀ j, j < e.numFrames → tolerate (e.frameWaitOutcome j) = none) :
    afterContext sc e =
      ([Event.setDefaultTimeout 5000, Event.newPage,
        Event.goto sc.initialUrl (some WaitUntil.commit) 10000,
        Event.waitForLoadState none "domcontentloaded" 3000] ++ frameEvents 0 e.numFrames ++
          (tailRes sc e).1,
       (tailRes sc e).2) := by
  have hfr : runFramesFrom e 0 e.numFrames = (frameEvents 0 e.numFrames, none) :=
    runFrames_ok_from e e.numFrames 0 (fun j hj => by simpa using hf j hj)
  simp [afterContext, tailRes, seq, mainWait, hp, hn, hm, hfr]

lemma teardown_all_ok (e : Env)
    (h1 : e.contextCloseOutcome = none) (h2 : e.browserCloseOutcome = none)
    (h3 : e.stopOutcome = none) :
    teardown ⟨true, true, true⟩ e =
      ([Event.contextClose, Event.browserClose, Event.pwStop], none) := by
  simp [teardown, closeRes, seq, h1, h2, h3]

lemma mergeFinally_none (o : Outcome) : mergeFinally o none = o := rfl

/-- A run in which acquisition, the initial navigation and the soft waits all
complete, and the three releases raise nothing, is the setup trace, then the
body/assertion tail, then the three releases in order; its result is the
tail's. -/
lemma runScenario_decomp (sc : Scenario) (e : Env)
    (h1 : e.startOutcome = none) (h2 : e.launchOutcome = none)
    (h3 : e.newContextOutcome = none) (hp : e.newPageOutcome = none)
    (hn : e.navOutcome 0 = none) (hm : tolerate e.mainWaitOutcome = none)
    (hf : ∀ j, j < e.numFrames → tolerate (e.frameWaitOutcome j) = none)
    (hc1 : e.contextCloseOutcome = none) (hc2 : e.browserCloseOutcome = none)
    (hc3 : e.stopOutcome = none) :
    runScenario sc e =
      (setupEvents sc e ++ (tailRes sc e).1 ++
         [Event.contextClose, Event.browserClose, Event.pwStop],
       (tailRes sc e).2) := by
  rw [runScenario, tryPart_acq sc e h1 h2 h3, teardown_all_ok e hc1 hc2 hc3,
    afterContext_ok sc e hp hn hm hf]
  simp [setupEvents, mergeFinally]

lemma runBody_append (e : Env) :
    ∀ (xs ys : List BodyStep) (n a : Nat),
      runBody e n a (xs ++ ys) =
        seq (runBody e n a xs) (runBody e (n + navsIn xs) (a + actsIn xs) ys) := by
  intro xs
  induction xs with
  | nil => intro ys n a; simp [runBody, navsIn, actsIn, seq]
  | cons s rest ih =>
      intro ys n a
      rw [List.cons_append, runBody, runBody, ih, seq_assoc]
      simp [navsIn, actsIn, Nat.add_assoc]

/-- If the body reaches step s (everything before s completed) and s raises,
the body's trace is the completed prefix followed by s's attempted calls, and
the body's exception is s's. -/
lemma runBody_fail (e : Env) (exc : Exc) (pre : List BodyStep) (s : BodyStep)
    (post : List BodyStep) (hpre : (runBody e 1 0 pre).2 = none)
    (hs : (stepRes e (1 + navsIn pre) (actsIn pre) s).2 = some exc) :
    runBody e 1 0 (pre ++ s :: post) =
      ((runBody e 1 0 pre).1 ++ (stepRes e (1 + navsIn pre) (actsIn pre) s).1, some exc) := by
  rw [runBody_append, runBody]
  simp only [Nat.zero_add]
  rw [seq_fail hs, seq_ok hpre, hs]

/-- A body-step failure seen from the whole run: setup completes, the body
stops at the failing step, the terminal assertion and the settle sleep never
run, the three releases still run, and the step's exception is the run's
result. -/
lemma runScenario_bodyFail (sc : Scenario) (e : Env) (exc : Exc)
    (pre : List BodyStep) (s : BodyStep) (post : List BodyStep)
    (h1 : e.startOutcome = none) (h2 : e.launchOutcome = none)
    (h3 : e.newContextOutcome = none) (hp : e.newPageOutcome = none)
    (hn : e.navOutcome 0 = none) (hm : tolerate e.mainWaitOutcome = none)
    (hf : ∀ j, j < e.numFrames → tolerate (e.frameWaitOutcome j) = none)
    (hc1 : e.contextCloseOutcome = none) (hc2 : e.browserCloseOutcome = none)
    (hc3 : e.stopOutcome = none)
    (hsteps : sc.steps = pre ++ s :: post)
    (hpre : (runBody e 1 0 pre).2 = none)
    (hs : (stepRes e (1 + navsIn pre) (actsIn pre) s).2 = some exc) :
    runScenario sc e =
      (setupEvents sc e ++
         ((runBody e 1 0 pre).1 ++ (stepRes e (1 + navsIn pre) (actsIn pre) s).1) ++
         [Event.contextClose, Event.browserClose, Event.pwStop],
       some exc) := by
  rw [runScenario_decomp sc e h1 h2 h3 hp hn hm hf hc1 hc2 hc3]
  rw [tailRes, hsteps, runBody_fail e exc pre s post hpre hs,
    seq_fail (a := (_, some exc)) rfl]

lemma teardown_events (a : Acquired) (e : Env) :
    ∀ x ∈ (teardown a e).1, isTeardown x = true := by
  have hc : ∀ (c : Bool) (ev : Event) (o : Outcome), isTeardown ev = true →
      ∀ x ∈ (closeRes c ev o).1, isTeardown x = true := by
    intro c ev o hev x hx
    cases c
    · simp [closeRes] at hx
    · simp [closeRes] at hx
      subst hx
      exact hev
  exact allEv_seq (hc _ _ _ rfl) (allEv_seq (hc _ _ _ rfl) (hc _ _ _ rfl))

/-- If the terminal assertion's visibility check appears in a run's trace,
then every call before it completed: the four acquisition calls, the initial
navigation, the tolerated main wait, every per-frame wait in range, and every
body step. -/
lemma assert_mem_complete (sc : Scenario) (e : Env) (t : String) (tm : Nat)
    (hx : Event.expectVisible t tm ∈ (runScenario sc e).1) :
    e.startOutcome = none ∧ e.launchOutcome = none ∧ e.newContextOutcome = none ∧
      e.newPageOutcome = none ∧ e.navOutcome 0 = none ∧
      tolerate e.mainWaitOutcome = none ∧
      (∀ j, j < e.numFrames → tolerate (e.frameWaitOutcome j) = none) ∧
      (runBody e 1 0 sc.steps).2 = none := by
  rw [runScenario] at hx
  rcases List.mem_append.1 hx with hx | hx
  swap
  · exact absurd (teardown_events _ e _ hx) (by simp [isTeardown])
  rcases h1 : e.startOutcome with _ | exc
  rotate_left
  · rw [tryPart] at hx; rw [h1] at hx; simp at hx
  rcases h2 : e.launchOutcome with _ | exc
  rotate_left
  · rw [tryPart] at hx; rw [h1, h2] at hx; simp at hx
  rcases h3 : e.newContextOutcome with _ | exc
  rotate_left
  · rw [tryPart] at hx; rw [h1, h2, h3] at hx; simp at hx
  rw [tryPart_acq sc e h1 h2 h3] at hx
  simp at hx
  rw [afterContext] at hx
  rcases mem_seq.1 hx with h | ⟨-, hx⟩
  · simp at h
  rcases mem_seq.1 hx with h | ⟨hp, hx⟩
  · simp at h
  rcases mem_seq.1 hx with h | ⟨hn, hx⟩
  · simp at h
  rcases mem_seq.1 hx with h | ⟨hm, hx⟩
  · simp [mainWait] at h
  rcases mem_seq.1 hx with h | ⟨hfr, hx⟩
  · have := runFrames_plain e e.numFrames 0 _ h
    simp [plainEv, isAssert] at this
  rcases mem_seq.1 hx with h | ⟨hb, -⟩
  · have := runBody_plain e sc.steps 1 0 _ h
    simp [plainEv, isAssert] at this
  refine ⟨rfl, rfl, rfl, by simpa using hp, by simpa using hn, by simpa [mainWait] using hm,
    ?_, hb⟩
  intro j hj
  have := runFrames_none e e.numFrames 0 hfr j hj
  simpa using this

lemma countP_seq (p : Event → Bool) (a b : Res) :
    ((seq a b).1.countP p) ≤ a.1.countP p + b.1.countP p := by
  rcases a with ⟨ta, oa⟩
  cases oa <;> simp [seq, List.countP_append]

lemma countP_zero_of_plain (p : Event → Bool) (l : List Event)
    (h : ∀ x ∈ l, p x = false) : l.countP p = 0 := by
  rw [List.countP_eq_zero]
  intro x hx
  simp [h x hx]

/-- At most one terminal visibility check appears in any trace. -/
lemma countP_assert_le_one (sc : Scenario) (e : Env) :
    ((runScenario sc e).1.countP isAssert) ≤ 1 := by
  rw [runScenario, List.countP_append]
  have hfin : ((teardown (tryPart sc e).2 e).1.countP isAssert) = 0 := by
    refine countP_zero_of_plain _ _ ?_
    intro x hx
    have := teardown_events _ e x hx
    cases x <;> simp_all [isTeardown, isAssert]
  rw [hfin]
  have htry : ((tryPart sc e).1.1.countP isAssert) ≤ 1 := by
    rw [tryPart]
    rcases e.startOutcome with _ | exc
    rotate_left
    · simp [isAssert]
    rcases e.launchOutcome with _ | exc
    rotate_left
    · simp [isAssert, List.countP_cons]
    rcases e.newContextOutcome with _ | exc
    rotate_left
    · simp [isAssert, List.countP_cons]
    simp only [List.countP_append]
    have h3 : (([Event.pwStart, Event.browserLaunch, Event.newContext] :
        List Event).countP isAssert) = 0 := by decide
    rw [h3]
    rw [afterContext]
    refine Nat.zero_add _ ▸ le_trans (countP_seq _ _ _) ?_
    have e1 : (([Event.setDefaultTimeout 5000] : List Event).countP isAssert) = 0 := by decide
    rw [e1]
    refine Nat.zero_add _ ▸ le_trans (countP_seq _ _ _) ?_
    have e2 : (([Event.newPage] : List Event).countP isAssert) = 0 := by decide
    rw [e2]
    refine Nat.zero_add _ ▸ le_trans (countP_seq _ _ _) ?_
    have e3 : (([Event.goto sc.initialUrl (some WaitUntil.commit) 10000] :
        List Event).countP isAssert) = 0 := by simp [isAssert]
    rw [e3]
    refine Nat.zero_add _ ▸ le_trans (countP_seq _ _ _) ?_
    have e4 : ((mainWait e).1.countP isAssert) = 0 := by simp [mainWait, isAssert]
    rw [e4]
    refine Nat.zero_add _ ▸ le_trans (countP_seq _ _ _) ?_
    have e5 : ((runFramesFrom e 0 e.numFrames).1.countP isAssert) = 0 := by
      refine countP_zero_of_plain _ _ ?_
      intro x hx
      have := runFrames_plain e e.numFrames 0 x hx
      simp [plainEv] at this
      exact this.2
    rw [e5]
    refine Nat.zero_add _ ▸ le_trans (countP_seq _ _ _) ?_
    have e6 : ((runBody e 1 0 sc.steps).1.countP isAssert) = 0 := by
      refine countP_zero_of_plain _ _ ?_
      intro x hx
      have := runBody_plain e sc.steps 1 0 x hx
      simp [plainEv] at this
      exact this.2
    rw [e6]
    refine Nat.zero_add _ ▸ le_trans (countP_seq _ _ _) ?_
    have e7 : ((assertStep sc e).1.countP isAssert) = 1 := by simp [assertStep, isAssert]
    rw [e7]
    simp [List.countP_cons, isAssert]
  omega

/-- Environment with both tolerant waits succeeding, all else unchanged. -/
def clearWaits (e : Env) : Env :=
  { e with mainWaitOutcome := none, frameWaitOutcome := fun _ => none }

lemma stepRes_congr (e e' : Env) (hn : e'.navOutcome = e.navOutcome)
    (ha : e'.actOutcome = e.actOutcome) (n a : Nat) (s : BodyStep) :
    stepRes e' n a s = stepRes e n a s := by
  cases s <;> simp [stepRes, hn, ha]

lemma runBody_congr (e e' : Env) (hn : e'.navOutcome = e.navOutcome)
    (ha : e'.actOutcome = e.actOutcome) :
    ∀ (l : List BodyStep) (n a : Nat), runBody e' n a l = runBody e n a l := by
  intro l
  induction l with
  | nil => intro n a; rfl
  | cons s rest ih =>
      intro n a
      rw [runBody, runBody, stepRes_congr e e' hn ha, ih]

lemma seq_snd_ok {a : Res} (h : a.2 = none) (b : Res) : (seq a b).2 = b.2 := by
  rw [seq_ok h]

lemma seq_snd_fail {a : Res} {exc : Exc} (h : a.2 = some exc) (b : Res) :
    (seq a b).2 = some exc := by
  rw [seq_fail h]
  exact h

lemma frameEvents_plain : ∀ (k s : Nat), ∀ x ∈ frameEvents s k, plainEv x = true := by
  intro k
  induction k with
  | zero => intro s x hx; simp [frameEvents] at hx
  | succ k ih =>
      intro s x hx
      rw [frameEvents] at hx
      rcases List.mem_cons.1 hx with hx | hx
      · subst hx; rfl
      · exact ih (s + 1) x hx

lemma setupEvents_noAssert (sc : Scenario) (e : Env) :
    ∀ x ∈ setupEvents sc e, isAssert x = false := by
  intro x hx
  rw [setupEvents] at hx
  rcases List.mem_append.1 hx with hx | hx
  · simp at hx
    rcases hx with hx | hx | hx | hx | hx | hx | hx <;> (subst hx; rfl)
  · have := frameEvents_plain e.numFrames 0 x hx
    simp [plainEv] at this
    exact this.2

/-! The claims. -/

/-- C1 (counterexample): the claim says each of the three releases is
independently guarded so that an error raised while closing one resource does
not skip the release of the remaining resources.  It is false: in a run where
everything succeeds except that context.close() raises a driver error, the
close of the context is attempted but browser.close() and pw.stop() never run,
and the close error becomes the run's result. -/
theorem C1_counterexample :
    Event.contextClose ∈ (runScenario TC004 envCtxCloseFail).1 ∧
      Event.browserClose ∉ (runScenario TC004 envCtxCloseFail).1 ∧
      Event.pwStop ∉ (runScenario TC004 envCtxCloseFail).1 ∧
      (runScenario TC004 envCtxCloseFail).2 = some Exc.driver := by
  decide

/-- C1 (amended): on every exit path of a fully acquired Session whose
releases raise nothing, teardown runs exactly once and at the very end of the
run, releasing context, browser and driver in that order; each release is
guarded by a truthiness check on its handle, but an error raised while closing
one resource skips the remaining releases. -/
theorem C1_teardown_every_path (sc : Scenario) (e : Env)
    (h1 : e.startOutcome = none) (h2 : e.launchOutcome = none)
    (h3 : e.newContextOutcome = none)
    (hc1 : e.contextCloseOutcome = none) (hc2 : e.browserCloseOutcome = none)
    (hc3 : e.stopOutcome = none) :
    ∃ B, (runScenario sc e).1 = B ++ [Event.contextClose, Event.browserClose, Event.pwStop] ∧
      ∀ x ∈ B, isTeardown x = false := by
  refine ⟨(tryPart sc e).1.1, ?_, tryPart_noTeardown sc e⟩
  rw [runScenario, tryPart_acq sc e h1 h2 h3, teardown_all_ok e hc1 hc2 hc3]

/-- C1 (witness): the amended claim at TC004 with every call succeeding. -/
theorem C1_witness :
    ∃ B, (runScenario TC004 envAllOk).1 =
        B ++ [Event.contextClose, Event.browserClose, Event.pwStop] ∧
      ∀ x ∈ B, isTeardown x = false :=
  C1_teardown_every_path TC004 envAllOk rfl rfl rfl rfl rfl rfl

/-- C2: a load-state wait that raises a driver error (timeouts included) is
caught and ignored: the whole run — trace and result — is identical to the run
in which both tolerant waits succeed, so every subsequent step executes
normally. -/
theorem C2_soft_waits (sc : Scenario) (e : Env)
    (hm : e.mainWaitOutcome = none ∨ e.mainWaitOutcome = some Exc.driver)
    (hf : ∀ i, e.frameWaitOutcome i = none ∨ e.frameWaitOutcome i = some Exc.driver) :
    runScenario sc e = runScenario sc (clearWaits e) := by
  have hm' : tolerate e.mainWaitOutcome = none := tolerate_none hm
  have hf' : ∀ i, tolerate (e.frameWaitOutcome i) = none := fun i => tolerate_none (hf i)
  have hframes : runFramesFrom (clearWaits e) 0 (clearWaits e).numFrames =
      runFramesFrom e 0 e.numFrames := by
    rw [runFrames_ok e hf' e.numFrames 0,
      runFrames_ok (clearWaits e) (fun i => rfl) (clearWaits e).numFrames 0]
    rfl
  have hmain : mainWait (clearWaits e) = mainWait e := by
    unfold mainWait
    rw [hm']
    rfl
  have hbody : runBody (clearWaits e) 1 0 sc.steps = runBody e 1 0 sc.steps :=
    runBody_congr e (clearWaits e) rfl rfl sc.steps 1 0
  have hAfter : afterContext sc (clearWaits e) = afterContext sc e := by
    rw [afterContext, afterContext, hmain, hframes, hbody]
    rfl
  have hTry : tryPart sc (clearWaits e) = tryPart sc e := by
    rcases h1 : e.startOutcome with _ | exc
    · rcases h2 : e.launchOutcome with _ | exc
      · rcases h3 : e.newContextOutcome with _ | exc
        · rw [tryPart_acq sc e h1 h2 h3, tryPart_acq sc (clearWaits e) h1 h2 h3, hAfter]
        · simp [tryPart, clearWaits, h1, h2, h3]
      · simp [tryPart, clearWaits, h1, h2]
    · simp [tryPart, clearWaits, h1]
  have hTear : ∀ a, teardown a (clearWaits e) = teardown a e := fun a => rfl
  rw [runScenario, runScenario, hTry, hTear]

/-- C2 (witness): with both tolerant waits raising driver errors, the TC004
run equals the clean-wait run. -/
theorem C2_witness :
    runScenario TC004 envSoftWaitFail = runScenario TC004 (clearWaits envSoftWaitFail) :=
  C2_soft_waits TC004 envSoftWaitFail (Or.inr rfl) (fun _ => Or.inr rfl)

/-- C10: teardown releases only what was acquired.  The handles start as None,
so if start() raises nothing is released; if launch raises only the driver is
stopped; if new_context raises only browser and driver are released — never a
release on an unacquired handle, and the acquisition error stays the run's
result. -/
theorem C10_guarded_releases (sc : Scenario) (e : Env) (exc : Exc)
    (hc1 : e.contextCloseOutcome = none) (hc2 : e.browserCloseOutcome = none)
    (hc3 : e.stopOutcome = none) :
    (e.startOutcome = some exc → runScenario sc e = ([Event.pwStart], some exc)) ∧
      (e.startOutcome = none → e.launchOutcome = some exc →
        runScenario sc e = ([Event.pwStart, Event.browserLaunch, Event.pwStop], some exc)) ∧
      (e.startOutcome = none → e.launchOutcome = none → e.newContextOutcome = some exc →
        runScenario sc e =
          ([Event.pwStart, Event.browserLaunch, Event.newContext, Event.browserClose,
            Event.pwStop], some exc)) := by
  refine ⟨fun h1 => ?_, fun h1 h2 => ?_, fun h1 h2 h3 => ?_⟩ <;>
    simp [runScenario, tryPart, teardown, closeRes, seq, mergeFinally, h1, hc1, hc2, hc3]
  · simp [*]
  · simp [*]

/-- C10 (witness): the launch-failure case at TC004. -/
theorem C10_witness :
    runScenario TC004 envLaunchFail =
      ([Event.pwStart, Event.browserLaunch, Event.pwStop], some Exc.driver) :=
  (C10_guarded_releases TC004 envLaunchFail Exc.driver rfl rfl rfl).2.1 rfl rfl

/-- C3: when a required body step (Navigate or LocateAndAct) raises after
everything before it completed, the step's exception is the run's result, the
trace is exactly the setup, the completed prefix and the failing step's
attempted calls — so no later step and never the terminal assertion — and the
three releases still run at the end. -/
theorem C3_fatal_step (sc : Scenario) (e : Env) (exc : Exc)
    (pre : List BodyStep) (s : BodyStep) (post : List BodyStep)
    (h1 : e.startOutcome = none) (h2 : e.launchOutcome = none)
    (h3 : e.newContextOutcome = none) (hp : e.newPageOutcome = none)
    (hn : e.navOutcome 0 = none) (hm : tolerate e.mainWaitOutcome = none)
    (hf : ∀ j, j < e.numFrames → tolerate (e.frameWaitOutcome j) = none)
    (hc1 : e.contextCloseOutcome = none) (hc2 : e.browserCloseOutcome = none)
    (hc3 : e.stopOutcome = none)
    (hsteps : sc.steps = pre ++ s :: post)
    (hpre : (runBody e 1 0 pre).2 = none)
    (hs : (stepRes e (1 + navsIn pre) (actsIn pre) s).2 = some exc) :
    (runScenario sc e).2 = some exc ∧
      (∀ t tm, Event.expectVisible t tm ∉ (runScenario sc e).1) ∧
      (runScenario sc e).1 =
        setupEvents sc e ++
          ((runBody e 1 0 pre).1 ++ (stepRes e (1 + navsIn pre) (actsIn pre) s).1) ++
          [Event.contextClose, Event.browserClose, Event.pwStop] := by
  have hrun := runScenario_bodyFail sc e exc pre s post h1 h2 h3 hp hn hm hf hc1 hc2 hc3
    hsteps hpre hs
  refine ⟨by rw [hrun], ?_, by rw [hrun]⟩
  intro t tm hmem
  rw [hrun] at hmem
  simp at hmem
  rcases hmem with hmem | hmem | hmem
  · have := setupEvents_noAssert sc e _ hmem
    simp [isAssert] at this
  · have := runBody_plain e pre 1 0 _ hmem
    simp [plainEv, isAssert] at this
  · have := stepRes_plain e (1 + navsIn pre) (actsIn pre) s _ hmem
    simp [plainEv, isAssert] at this

/-- C3 (witness): in TC004, the first body navigation raises a driver error
after an all-clean setup; the run's result is that error, the assertion is
absent from the trace, and the trace is setup, the failing goto, then the
three releases. -/
theorem C3_witness :
    (runScenario TC004 envNavFail).2 = some Exc.driver ∧
      (∀ t tm, Event.expectVisible t tm ∉ (runScenario TC004 envNavFail).1) ∧
      (runScenario TC004 envNavFail).1 =
        setupEvents TC004 envNavFail ++
          (([] : List Event) ++ [Event.goto "http://localhost:8080/login" none 10000]) ++
          [Event.contextClose, Event.browserClose, Event.pwStop] :=
  C3_fatal_step TC004 envNavFail Exc.driver []
    (BodyStep.navigate "http://localhost:8080/login" 10000)
    (TC004.steps.tail) rfl rfl rfl rfl rfl rfl (fun _ _ => rfl) rfl rfl rfl rfl rfl rfl

/-- C4 (counterexample): the claim says every Navigate waits only until the
request is committed.  It is false: in the all-clean TC004 run, already the
second goto call is made without any wait_until argument (the driver's
default, full page load, applies), not with commit. -/
theorem C4_counterexample :
    ¬ ∀ c ∈ gotoCalls (runScenario TC004 envAllOk).1, c.2.1 = some WaitUntil.commit := by
  decide

/-- C4 (amended): only the initial navigation of each Scenario passes
wait_until="commit"; every later Navigate omits the argument (driver default,
full load).  Every navigation passes its own 10000 ms timeout, and a
navigation failure — initial or in the body — is fatal: its exception becomes
the run's result. -/
theorem C4_navigation :
    (∀ sc ∈ allScenarios,
       (gotoCalls (runScenario sc envAllOk).1).head? =
         some (sc.initialUrl, some WaitUntil.commit, 10000)) ∧
      (∀ sc ∈ allScenarios,
        ∀ c ∈ (gotoCalls (runScenario sc envAllOk).1).tail, c.2.1 = none) ∧
      (∀ sc ∈ allScenarios, ∀ c ∈ gotoCalls (runScenario sc envAllOk).1, c.2.2 = 10000) ∧
      (∀ (sc : Scenario) (e : Env) (exc : Exc),
        e.startOutcome = none → e.launchOutcome = none → e.newContextOutcome = none →
        e.newPageOutcome = none → e.navOutcome 0 = some exc →
        e.contextCloseOutcome = none → e.browserCloseOutcome = none → e.stopOutcome = none →
        (runScenario sc e).2 = some exc) ∧
      (∀ (sc : Scenario) (e : Env) (exc : Exc) (pre : List BodyStep) (url : String)
          (t : Nat) (post : List BodyStep),
        e.startOutcome = none → e.launchOutcome = none → e.newContextOutcome = none →
        e.newPageOutcome = none → e.navOutcome 0 = none →
        tolerate e.mainWaitOutcome = none →
        (∀ j, j < e.numFrames → tolerate (e.frameWaitOutcome j) = none) →
        e.contextCloseOutcome = none → e.browserCloseOutcome = none → e.stopOutcome = none →
        sc.steps = pre ++ BodyStep.navigate url t :: post →
        (runBody e 1 0 pre).2 = none →
        e.navOutcome (1 + navsIn pre) = some exc →
        (runScenario sc e).2 = some exc) := by
  refine ⟨by decide, by decide, by decide, ?_, ?_⟩
  · intro sc e exc h1 h2 h3 hp hnav hc1 hc2 hc3
    rw [runScenario, tryPart_acq sc e h1 h2 h3, teardown_all_ok e hc1 hc2 hc3]
    simp [mergeFinally, afterContext, seq, hp, hnav]
  · intro sc e exc pre url t post h1 h2 h3 hp hn hm hf hc1 hc2 hc3 hsteps hpre hnav
    have hs : (stepRes e (1 + navsIn pre) (actsIn pre) (BodyStep.navigate url t)).2 =
        some exc := by
      simp [stepRes, seq, hnav]
    have hrun := runScenario_bodyFail sc e exc pre (BodyStep.navigate url t) post
      h1 h2 h3 hp hn hm hf hc1 hc2 hc3 hsteps hpre hs
    rw [hrun]

/-- C4 (witness): the fatality conjuncts at TC004: a failing initial
navigation and a failing first body navigation each become the run's result. -/
theorem C4_witness :
    (runScenario TC004 envNav0Fail).2 = some Exc.driver ∧
      (runScenario TC004 envNavFail).2 = some Exc.driver :=
  ⟨C4_navigation.2.2.2.1 TC004 envNav0Fail Exc.driver rfl rfl rfl rfl rfl rfl rfl rfl,
   C4_navigation.2.2.2.2 TC004 envNavFail Exc.driver []
     "http://localhost:8080/login" 10000 TC004.steps.tail
     rfl rfl rfl rfl rfl rfl (fun _ _ => rfl) rfl rfl rfl rfl rfl rfl⟩

/-- C5: at most one terminal visibility check appears in any trace; if it
appears, every preceding call completed (acquisition, initial navigation,
tolerated waits, and the whole body), and it sits after all body events in the
trace; and in the complete run of each of the seven Scenarios it executes
exactly once. -/
theorem C5_terminal_assertion :
    (∀ (sc : Scenario) (e : Env), ((runScenario sc e).1.countP isAssert) ≤ 1) ∧
      (∀ (sc : Scenario) (e : Env) (t : String) (tm : Nat),
        Event.expectVisible t tm ∈ (runScenario sc e).1 →
        (runBody e 1 0 sc.steps).2 = none ∧
          ∃ rest, (runScenario sc e).1 =
            setupEvents sc e ++ (runBody e 1 0 sc.steps).1 ++
              Event.expectVisible sc.assertSelector sc.assertTimeoutMs :: rest) ∧
      (∀ sc ∈ allScenarios, ((runScenario sc envAllOk).1.countP isAssert) = 1) := by
  refine ⟨countP_assert_le_one, ?_, by decide⟩
  intro sc e t tm hx
  obtain ⟨h1, h2, h3, hp, hn, hm, hf, hb⟩ := assert_mem_complete sc e t tm hx
  refine ⟨hb, ?_⟩
  rw [runScenario, tryPart_acq sc e h1 h2 h3, afterContext_ok sc e hp hn hm hf]
  rw [tailRes, seq_ok hb]
  cases hv : e.assertVisible with
  | false =>
      have hstep : (assertStep sc e).2 = some (Exc.assertionError sc.failMsg) := by
        simp [assertStep, hv]
      rw [seq_fail hstep]
      refine ⟨(teardown ⟨true, true, true⟩ e).1, ?_⟩
      simp [setupEvents, assertStep, List.append_assoc]
  | true =>
      rw [seq_ok (a := assertStep sc e) (by simp [assertStep, hv])]
      refine ⟨Event.sleep 5 :: (teardown ⟨true, true, true⟩ e).1, ?_⟩
      simp [setupEvents, assertStep, List.append_assoc]

/-- C5 (witness): the membership conjunct at TC004 in the all-clean run. -/
theorem C5_witness :
    (runBody envAllOk 1 0 TC004.steps).2 = none ∧
      ∃ rest, (runScenario TC004 envAllOk).1 =
        setupEvents TC004 envAllOk ++ (runBody envAllOk 1 0 TC004.steps).1 ++
          Event.expectVisible TC004.assertSelector TC004.assertTimeoutMs :: rest :=
  C5_terminal_assertion.2.1 TC004 envAllOk "text=Listing Published Successfully" 1000
    (by decide)

/-- C6: when the terminal assertion's text never becomes visible in a run
whose every other call completed, the run raises exactly the authored
AssertionError carrying the Scenario's business-level message, and that
exception is the run's result; each of the seven authored messages starts
with a describing "Test case failed:" sentence. -/
theorem C6_failure_reason :
    (∀ (sc : Scenario) (e : Env),
      e.startOutcome = none → e.launchOutcome = none → e.newContextOutcome = none →
      e.newPageOutcome = none → e.navOutcome 0 = none →
      tolerate e.mainWaitOutcome = none →
      (∀ j, j < e.numFrames → tolerate (e.frameWaitOutcome j) = none) →
      (runBody e 1 0 sc.steps).2 = none →
      e.assertVisible = false →
      e.contextCloseOutcome = none → e.browserCloseOutcome = none → e.stopOutcome = none →
      (runScenario sc e).2 = some (Exc.assertionError sc.failMsg)) ∧
      (∀ sc ∈ allScenarios, sc.failMsg.data.take 17 = "Test case failed:".data) := by
  constructor
  · intro sc e h1 h2 h3 hp hn hm hf hb hv hc1 hc2 hc3
    rw [runScenario_decomp sc e h1 h2 h3 hp hn hm hf hc1 hc2 hc3]
    show (tailRes sc e).2 = _
    rw [tailRes, seq_snd_ok hb]
    have hstep : (assertStep sc e).2 = some (Exc.assertionError sc.failMsg) := by
      simp [assertStep, hv]
    rw [seq_snd_fail hstep]
  · decide

/-- C6 (witness): the failing-assertion case at TC005. -/
theorem C6_witness :
    (runScenario TC005 envAssertFail).2 = some (Exc.assertionError TC005.failMsg) :=
  C6_failure_reason.1 TC005 envAssertFail rfl rfl rfl rfl rfl rfl (fun _ _ => rfl)
    rfl rfl rfl rfl rfl

/-- C7: the listing-creation Scenario TC004 contains the authored login steps
(navigate to /login, fill the email field with host@example.com, fill the
password field with 12345abc, click Sign In); its terminal assertion checks
the text Listing Published Successfully within 1000 ms; when that text is not
visible, the run's result is the authored AssertionError whose message states
the listing-draft and image-upload expectations; and the trace still ends with
the three releases. -/
theorem C7_authored_message :
    BodyStep.navigate "http://localhost:8080/login" 10000 ∈ TC004.steps ∧
      BodyStep.fill emailSel "host@example.com" ∈ TC004.steps ∧
      BodyStep.fill passwordSel "12345abc" ∈ TC004.steps ∧
      BodyStep.click signInSel 5000 ∈ TC004.steps ∧
      TC004.assertSelector = "text=Listing Published Successfully" ∧
      TC004.assertTimeoutMs = 1000 ∧
      (runScenario TC004 envAssertFail).2 = some (Exc.assertionError TC004.failMsg) ∧
      TC004.failMsg = "Test case failed: The listing creation test did not pass as expected. The listing was not saved as a draft and images were not confirmed uploaded. Expected 'draft' status and image previews, but these were not found on the page." ∧
      ∃ B, (runScenario TC004 envAssertFail).1 =
        B ++ [Event.contextClose, Event.browserClose, Event.pwStop] :=
  ⟨by decide, by decide, by decide, by decide, rfl, rfl, rfl, rfl,
   ⟨(tryPart TC004 envAssertFail).1.1, rfl⟩⟩

/-- C8: when the terminal assertion's text is visible in time and every other
call completed, the Scenario returns normally: the assertion passes, the fixed
5-second settle sleep runs, and then the three releases run, in that order at
the end of the trace. -/
theorem C8_assert_pass (sc : Scenario) (e : Env)
    (h1 : e.startOutcome = none) (h2 : e.launchOutcome = none)
    (h3 : e.newContextOutcome = none) (hp : e.newPageOutcome = none)
    (hn : e.navOutcome 0 = none) (hm : tolerate e.mainWaitOutcome = none)
    (hf : ∀ j, j < e.numFrames → tolerate (e.frameWaitOutcome j) = none)
    (hb : (runBody e 1 0 sc.steps).2 = none)
    (hv : e.assertVisible = true)
    (hc1 : e.contextCloseOutcome = none) (hc2 : e.browserCloseOutcome = none)
    (hc3 : e.stopOutcome = none) :
    (runScenario sc e).2 = none ∧
      (runScenario sc e).1 =
        setupEvents sc e ++ (runBody e 1 0 sc.steps).1 ++
          [Event.expectVisible sc.assertSelector sc.assertTimeoutMs, Event.sleep 5,
           Event.contextClose, Event.browserClose, Event.pwStop] := by
  have htail : tailRes sc e =
      ((runBody e 1 0 sc.steps).1 ++
        [Event.expectVisible sc.assertSelector sc.assertTimeoutMs, Event.sleep 5], none) := by
    rw [tailRes, seq_ok (a := assertStep sc e) (by simp [assertStep, hv]), seq_ok hb]
    simp [assertStep]
  rw [runScenario_decomp sc e h1 h2 h3 hp hn hm hf hc1 hc2 hc3, htail]
  simp [List.append_assoc]

/-- C8 (witness): the all-clean TC004 run returns normally with the settle
sleep and the releases at the end. -/
theorem C8_witness :
    (runScenario TC004 envAllOk).2 = none ∧
      (runScenario TC004 envAllOk).1 =
        setupEvents TC004 envAllOk ++ (runBody envAllOk 1 0 TC004.steps).1 ++
          [Event.expectVisible TC004.assertSelector TC004.assertTimeoutMs, Event.sleep 5,
           Event.contextClose, Event.browserClose, Event.pwStop] :=
  C8_assert_pass TC004 envAllOk rfl rfl rfl rfl rfl rfl (fun _ _ => rfl) rfl rfl rfl rfl rfl

/-- C9: the tolerance of the load-state waits extends only to driver errors.
An exception of any other class raised during the main tolerant wait, or
during a per-frame tolerant wait reached in the loop, is not caught: it
becomes the run's result, the terminal assertion never appears in the trace,
and the three releases still run. -/
theorem C9_nondriver_wait (sc : Scenario) (e : Env) (exc : Exc)
    (hexc : exc ≠ Exc.driver)
    (h1 : e.startOutcome = none) (h2 : e.launchOutcome = none)
    (h3 : e.newContextOutcome = none) (hp : e.newPageOutcome = none)
    (hn : e.navOutcome 0 = none)
    (hc1 : e.contextCloseOutcome = none) (hc2 : e.browserCloseOutcome = none)
    (hc3 : e.stopOutcome = none)
    (hw : e.mainWaitOutcome = some exc ∨
      (tolerate e.mainWaitOutcome = none ∧
        ∃ i, i < e.numFrames ∧ (∀ j, j < i → tolerate (e.frameWaitOutcome j) = none) ∧
          e.frameWaitOutcome i = some exc)) :
    (runScenario sc e).2 = some exc ∧
      (∀ t tm, Event.expectVisible t tm ∉ (runScenario sc e).1) ∧
      ∃ B, (runScenario sc e).1 =
        B ++ [Event.contextClose, Event.browserClose, Event.pwStop] := by
  have hAfterOut : (afterContext sc e).2 = some exc := by
    rw [afterContext]
    rw [seq_snd_ok (a := ([Event.setDefaultTimeout 5000], none)) rfl]
    rw [seq_snd_ok (a := ([Event.newPage], e.newPageOutcome)) hp]
    rw [seq_snd_ok
      (a := ([Event.goto sc.initialUrl (some WaitUntil.commit) 10000], e.navOutcome 0)) hn]
    rcases hw with hw | ⟨hm, i, hik, hok, hbad⟩
    · exact seq_snd_fail (a := mainWait e)
        (by simp [mainWait, hw, tolerate_some hexc]) _
    · rw [seq_snd_ok (a := mainWait e) (by simpa [mainWait] using hm)]
      refine seq_snd_fail (a := runFramesFrom e 0 e.numFrames) ?_ _
      refine runFrames_fail e exc i e.numFrames 0 hik
        (fun j hj => by simpa using hok j hj) ?_
      simp [hbad, tolerate_some hexc]
  refine ⟨?_, ?_, ⟨(tryPart sc e).1.1, ?_⟩⟩
  · rw [runScenario, tryPart_acq sc e h1 h2 h3, teardown_all_ok e hc1 hc2 hc3]
    simp [mergeFinally, hAfterOut]
  · intro t tm hmem
    obtain ⟨-, -, -, -, -, hm', hf', -⟩ := assert_mem_complete sc e t tm hmem
    rcases hw with hw | ⟨-, i, hik, -, hbad⟩
    · rw [hw, tolerate_some hexc] at hm'
      exact Option.noConfusion hm'
    · have := hf' i hik
      rw [hbad, tolerate_some hexc] at this
      exact Option.noConfusion this
  · rw [runScenario, tryPart_acq sc e h1 h2 h3, teardown_all_ok e hc1 hc2 hc3]

/-- C9 (witness): a non-driver exception in the main tolerant wait of TC004
aborts the run with that exception, without the assertion, with the releases
still present. -/
theorem C9_witness :
    (runScenario TC004 envWaitOtherFail).2 = some Exc.other ∧
      (∀ t tm, Event.expectVisible t tm ∉ (runScenario TC004 envWaitOtherFail).1) ∧
      ∃ B, (runScenario TC004 envWaitOtherFail).1 =
        B ++ [Event.contextClose, Event.browserClose, Event.pwStop] :=
  C9_nondriver_wait TC004 envWaitOtherFail Exc.other (by decide) rfl rfl rfl rfl rfl
    rfl rfl rfl (Or.inl rfl)

end Runner
